import Mathlib

/-!
Verification of the command builder and process runner in
`src/gui/gradio_cli_wrapper.py` (`build_command`, `_split_device_ids`,
`run_inference`), embedded shallowly in Lean 4.

Python strings are modelled as Lean `String`; the helper functions
`pyStrip`, `pySplit`, `pyJoin` and `pyReplaceCommaWithSpace` embed the
Python string operations `str.strip()`, `str.split()` (no argument),
`sep.join(...)` and `value.replace(",", " ")` used by the source.
The subprocess boundary is modelled by a `world` function mapping the
command token list to the outcome `subprocess.run` would produce
(`FileNotFoundError`, or a completed process with captured text stdout,
stderr and an exit code).
-/

/-- ASCII whitespace recognised by Python `str.strip()` / `str.split()`. -/
def isPySpace (c : Char) : Bool :=
  c = ' ' || c = '\t' || c = '\n' || c = '\r' || c = '\x0b' || c = '\x0c'

/-- Embeds Python `s.strip()`: drop leading and trailing whitespace. -/
def pyStrip (s : String) : String :=
  String.mk (((s.data.dropWhile isPySpace).reverse.dropWhile isPySpace).reverse)

/-- Helper for `pySplit`: walk the characters, accumulating the current word. -/
def pySplitAux (l : List Char) (acc : List Char) : List (List Char) :=
  match l with
  | [] => if acc.isEmpty then [] else [acc.reverse]
  | c :: rest =>
      if isPySpace c then
        if acc.isEmpty then pySplitAux rest [] else acc.reverse :: pySplitAux rest []
      else
        pySplitAux rest (c :: acc)

/-- Embeds Python `s.split()` (no separator): split on runs of whitespace,
discarding empty words. -/
def pySplit (s : String) : List String :=
  (pySplitAux s.data []).map String.mk

/-- Embeds Python `sep.join(sections)`. -/
def pyJoin (sep : String) : List String → String
  | [] => ""
  | [x] => x
  | x :: y :: rest => x ++ sep ++ pyJoin sep (y :: rest)

/-- Embeds Python `value.replace(",", " ")` (single-character pattern and
replacement, so a character-wise map). -/
def pyReplaceCommaWithSpace (s : String) : String :=
  String.mk (s.data.map (fun c => if c = ',' then ' ' else c))

/-- Characters Python `shlex.quote` leaves unquoted
(ASCII word characters plus `@ % + = : , . /` and hyphen). -/
def shlexSafe (c : Char) : Bool :=
  c.isAlphanum || c = '_' || c = '@' || c = '%' || c = '+' || c = '=' ||
    c = ':' || c = ',' || c = '.' || c = '/' || c = '-'

/-- Embeds the single-quote escaping inside Python `shlex.quote`:
each `'` becomes `'"'"'`. -/
def shlexEscape (l : List Char) : List Char :=
  l.foldr (fun c acc =>
    (if c = '\x27' then "\x27\"\x27\"\x27".data else [c]) ++ acc) []

/-- Embeds Python `shlex.quote(s)`. -/
def shlex_quote (s : String) : String :=
  if s = "" then "\x27\x27"
  else if s.data.all shlexSafe then s
  else String.mk ('\x27' :: shlexEscape s.data ++ ['\x27'])

/-- The keyword arguments of `build_command` / `run_inference`
(`src/gui/gradio_cli_wrapper.py:26-37`). The device-id specifier is an
`Option String` because Python permits passing `None`, which line 62
(`device_ids or ""`) folds into the empty string. -/
structure Params where
  model_type : String
  config_path : String
  start_check_point : String
  input_file : String
  store_dir : String
  extract_instrumental : Bool
  use_tta : Bool
  force_cpu : Bool
  device_ids : Option String

/-- Embeds `_split_device_ids` (`src/gui/gradio_cli_wrapper.py:70-71`):
`value.replace(",", " ").split()`. -/
def split_device_ids (value : String) : List String :=
  pySplit (pyReplaceCommaWithSpace value)

/-- The unconditional flag/value tokens of `build_command`
(`src/gui/gradio_cli_wrapper.py:40-53`), headed by `sys.executable` and
`str(INFERENCE_SCRIPT)`, which are environment values passed in as
`pyExe` and `script`. -/
def required_tokens (pyExe script : String) (p : Params) : List String :=
  [pyExe, script,
   "--model_type", p.model_type,
   "--config_path", p.config_path,
   "--start_check_point", p.start_check_point,
   "--input_file", p.input_file,
   "--store_dir", p.store_dir]

/-- The token list after the three conditional bare boolean flags have been
appended (`src/gui/gradio_cli_wrapper.py:55-60`). -/
def base_tokens (pyExe script : String) (p : Params) : List String :=
  ((required_tokens pyExe script p ++
      (if p.extract_instrumental then ["--extract_instrumental"] else [])) ++
      (if p.use_tta then ["--use_tta"] else [])) ++
      (if p.force_cpu then ["--force_cpu"] else [])

/-- The tokens appended for the device-id specifier
(`src/gui/gradio_cli_wrapper.py:62-65`): strip `device_ids or ""`; when the
result is non-empty, append `--device_ids` followed by the split tokens. -/
def device_tokens (device_ids : Option String) : List String :=
  let d := pyStrip (device_ids.getD "")
  if d = "" then [] else "--device_ids" :: split_device_ids d

/-- Embeds `build_command` (`src/gui/gradio_cli_wrapper.py:26-67`). -/
def build_command (pyExe script : String) (p : Params) : List String :=
  base_tokens pyExe script p ++ device_tokens p.device_ids

/-- Embeds `" ".join(shlex.quote(part) for part in cmd)`
(`src/gui/gradio_cli_wrapper.py:124`). -/
def quoted_command (pyExe script : String) (p : Params) : String :=
  pyJoin " " ((build_command pyExe script p).map shlex_quote)

/-- Outcome of the `subprocess.run` call: either a `FileNotFoundError`
carrying its rendered message, or a completed process with captured text
stdout, stderr and exit code (`src/gui/gradio_cli_wrapper.py:126-133`). -/
inductive ProcResult where
  | fileNotFound (excMsg : String)
  | completed (stdout stderr : String) (exitCode : Int)

/-- Result of `run_inference`: the returned transcript string, plus a flag
recording whether the process-launch operation (`subprocess.run`) was
invoked at all. -/
structure RunOutcome where
  transcript : String
  proc_launched : Bool

/-- Embeds `run_inference` (`src/gui/gradio_cli_wrapper.py:74-142`).
`world` models the subprocess boundary: it maps the command token list to
what `subprocess.run` does for it. -/
def run_inference (pyExe script : String) (world : List String → ProcResult)
    (p : Params) : RunOutcome :=
  if p.input_file = p.store_dir then
    { transcript :=
        "Error: input_file and store_dir must be different to avoid overwriting files.",
      proc_launched := false }
  else
    let cmd := build_command pyExe script p
    let quoted := pyJoin " " (cmd.map shlex_quote)
    match world cmd with
    | ProcResult.fileNotFound excMsg =>
        { transcript :=
            "Failed to run inference script: " ++ excMsg ++ "\nCommand: " ++ quoted,
          proc_launched := true }
    | ProcResult.completed out err _ =>
        { transcript :=
            pyJoin "\n"
              ((["$ " ++ quoted, "", pyStrip out, pyStrip err]).filter
                (fun s => !s.isEmpty)),
          proc_launched := true }

/-- The concrete Parameter Set of the spec end-to-end scenario. -/
def scenarioParams : Params :=
  { model_type := "bs_roformer"
    config_path := "c.yaml"
    start_check_point := "m.ckpt"
    input_file := "a.wav"
    store_dir := "out/"
    extract_instrumental := false
    use_tta := false
    force_cpu := false
    device_ids := some "0" }

/-- A Parameter Set violating the same-path invariant. -/
def samePathParams : Params :=
  { scenarioParams with store_dir := "a.wav" }

/-- A subprocess boundary whose launch always succeeds with the given
captured outputs and exit code. -/
def okWorld (out err : String) (code : Int) : List String → ProcResult :=
  fun _ => ProcResult.completed out err code

/-- A subprocess boundary whose launch always raises `FileNotFoundError`. -/
def missingWorld : List String → ProcResult :=
  fun _ => ProcResult.fileNotFound "[Errno 2] No such file or directory"

/-- The three conditional bare boolean flag tokens of `build_command`. -/
def bare_flag_tokens : List String :=
  ["--extract_instrumental", "--use_tta", "--force_cpu"]

theorem build_command_append_form (pyExe script : String) (p : Params) :
    build_command pyExe script p =
      required_tokens pyExe script p ++
        ((if p.extract_instrumental then ["--extract_instrumental"] else []) ++
         ((if p.use_tta then ["--use_tta"] else []) ++
          ((if p.force_cpu then ["--force_cpu"] else []) ++
           device_tokens p.device_ids))) := by
  simp [build_command, base_tokens, List.append_assoc]

theorem isEmpty_false_of_ne (s : String) (h : s ≠ "") : s.isEmpty = false := by
  rw [Bool.eq_false_iff]
  exact fun hh => h ((String.isEmpty_iff _).mp hh)

theorem dollar_section_isEmpty (q : String) : ("$ " ++ q).isEmpty = false := by
  apply isEmpty_false_of_ne
  obtain ⟨l⟩ := q
  intro h
  have h2 : ('$' :: ' ' :: l) = ([] : List Char) := congrArg String.data h
  cases h2

theorem pyJoin_filter_sections (q o e : String) :
    pyJoin "\n" ((["$ " ++ q, "", o, e]).filter (fun s => !s.isEmpty)) =
      "$ " ++ q ++ (if o = "" then "" else "\n" ++ o) ++
        (if e = "" then "" else "\n" ++ e) := by
  have hq := dollar_section_isEmpty q
  by_cases ho : o = "" <;> by_cases he : e = "" <;>
    simp [List.filter, hq, ho, he, isEmpty_false_of_ne o, isEmpty_false_of_ne e,
      pyJoin, String.append_assoc]


/-- Claim C1: when the input file string equals the store directory string,
`run_inference` returns the error-message transcript, does not invoke the
process-launch operation, and its result does not depend on the subprocess
boundary at all. -/
theorem run_inference_same_path_guard (pyExe script : String)
    (world : List String → ProcResult) (p : Params)
    (h : p.input_file = p.store_dir) :
    (run_inference pyExe script world p).transcript =
      "Error: input_file and store_dir must be different to avoid overwriting files." ∧
    (run_inference pyExe script world p).proc_launched = false ∧
    ∀ world2, run_inference pyExe script world p = run_inference pyExe script world2 p := by
  refine ⟨?_, ?_, ?_⟩ <;> simp [run_inference, h]

/-- Witness for C1 at a concrete same-path Parameter Set. -/
theorem run_inference_same_path_guard_witness :
    (run_inference "py" "inference.py" missingWorld samePathParams).transcript =
      "Error: input_file and store_dir must be different to avoid overwriting files." ∧
    (run_inference "py" "inference.py" missingWorld samePathParams).proc_launched = false ∧
    ∀ world2, run_inference "py" "inference.py" missingWorld samePathParams =
      run_inference "py" "inference.py" world2 samePathParams :=
  run_inference_same_path_guard "py" "inference.py" missingWorld samePathParams rfl

/-- Claim C2: with distinct input and output locations, a launch failure
(`FileNotFoundError`) is caught and turned into a transcript holding the
failure description and the attempted (quoted) command line; no exception
escapes (the embedding is total). -/
theorem run_inference_launch_failure (pyExe script : String)
    (world : List String → ProcResult) (p : Params) (msg : String)
    (hne : p.input_file ≠ p.store_dir)
    (hw : world (build_command pyExe script p) = ProcResult.fileNotFound msg) :
    (run_inference pyExe script world p).transcript =
      "Failed to run inference script: " ++ msg ++ "\nCommand: " ++
        quoted_command pyExe script p := by
  simp [run_inference, hne, hw, quoted_command]

/-- Witness for C2 at a concrete Parameter Set and failing launch. -/
theorem run_inference_launch_failure_witness :
    (run_inference "py" "inference.py" missingWorld scenarioParams).transcript =
      "Failed to run inference script: " ++ "[Errno 2] No such file or directory" ++
        "\nCommand: " ++ quoted_command "py" "inference.py" scenarioParams :=
  run_inference_launch_failure "py" "inference.py" missingWorld scenarioParams
    "[Errno 2] No such file or directory" (by decide) rfl

/-- Claim C6: with distinct locations and a successful launch, the transcript
is the newline-join of the sections (echoed command line, blank line, stripped
stdout, stripped stderr) with empty sections skipped; equivalently the closed
form appending a newline-prefixed section per non-empty stripped stream. -/
theorem run_inference_success_transcript (pyExe script : String)
    (world : List String → ProcResult) (p : Params) (out err : String) (code : Int)
    (hne : p.input_file ≠ p.store_dir)
    (hw : world (build_command pyExe script p) = ProcResult.completed out err code) :
    (run_inference pyExe script world p).transcript =
      pyJoin "\n"
        ((["$ " ++ quoted_command pyExe script p, "", pyStrip out, pyStrip err]).filter
          (fun s => !s.isEmpty)) ∧
    (run_inference pyExe script world p).transcript =
      "$ " ++ quoted_command pyExe script p ++
        (if pyStrip out = "" then "" else "\n" ++ pyStrip out) ++
        (if pyStrip err = "" then "" else "\n" ++ pyStrip err) := by
  have h1 : (run_inference pyExe script world p).transcript =
      pyJoin "\n"
        ((["$ " ++ quoted_command pyExe script p, "", pyStrip out, pyStrip err]).filter
          (fun s => !s.isEmpty)) := by
    simp [run_inference, hne, hw, quoted_command]
  exact ⟨h1, h1.trans (pyJoin_filter_sections _ _ _)⟩

/-- Witness for C6 at a concrete Parameter Set and a successful run. -/
theorem run_inference_success_transcript_witness :
    (run_inference "py" "inference.py" (okWorld "hello" "warn" 0) scenarioParams).transcript =
      pyJoin "\n"
        ((["$ " ++ quoted_command "py" "inference.py" scenarioParams, "",
           pyStrip "hello", pyStrip "warn"]).filter (fun s => !s.isEmpty)) ∧
    (run_inference "py" "inference.py" (okWorld "hello" "warn" 0) scenarioParams).transcript =
      "$ " ++ quoted_command "py" "inference.py" scenarioParams ++
        (if pyStrip "hello" = "" then "" else "\n" ++ pyStrip "hello") ++
        (if pyStrip "warn" = "" then "" else "\n" ++ pyStrip "warn") :=
  run_inference_success_transcript "py" "inference.py" (okWorld "hello" "warn" 0)
    scenarioParams "hello" "warn" 0 (by decide) rfl

/-- Claim C7: for two successful runs with the same Parameter Set and the
same captured stdout and stderr but different child exit codes, the results
are identical: the exit status has no influence. -/
theorem run_inference_exit_code_irrelevant (pyExe script : String)
    (w1 w2 : List String → ProcResult) (p : Params) (out err : String) (c1 c2 : Int)
    (hne : p.input_file ≠ p.store_dir) (hcode : c1 ≠ c2)
    (h1 : w1 (build_command pyExe script p) = ProcResult.completed out err c1)
    (h2 : w2 (build_command pyExe script p) = ProcResult.completed out err c2) :
    run_inference pyExe script w1 p = run_inference pyExe script w2 p := by
  simp [run_inference, hne, h1, h2]

/-- Witness for C7: exit codes 0 and 1 with identical outputs. -/
theorem run_inference_exit_code_irrelevant_witness :
    run_inference "py" "inference.py" (okWorld "o" "e" 0) scenarioParams =
      run_inference "py" "inference.py" (okWorld "o" "e" 1) scenarioParams :=
  run_inference_exit_code_irrelevant "py" "inference.py" (okWorld "o" "e" 0)
    (okWorld "o" "e" 1) scenarioParams "o" "e" 0 1 (by decide) (by decide) rfl rfl

/-- Claim C10: stdout and stderr enter the transcript only after stripping
leading and trailing whitespace, so whitespace-only captured output (for
example a lone newline) contributes no section at all. -/
theorem run_inference_strips_output (pyExe script : String)
    (world : List String → ProcResult) (p : Params) (out err : String) (code : Int)
    (hne : p.input_file ≠ p.store_dir)
    (hw : world (build_command pyExe script p) = ProcResult.completed out err code) :
    (run_inference pyExe script world p).transcript =
      "$ " ++ quoted_command pyExe script p ++
        (if pyStrip out = "" then "" else "\n" ++ pyStrip out) ++
        (if pyStrip err = "" then "" else "\n" ++ pyStrip err) ∧
    (pyStrip out = "" → pyStrip err = "" →
      (run_inference pyExe script world p).transcript =
        "$ " ++ quoted_command pyExe script p) ∧
    pyStrip "\n" = "" := by
  have h1 : (run_inference pyExe script world p).transcript =
      "$ " ++ quoted_command pyExe script p ++
        (if pyStrip out = "" then "" else "\n" ++ pyStrip out) ++
        (if pyStrip err = "" then "" else "\n" ++ pyStrip err) := by
    have h0 : (run_inference pyExe script world p).transcript =
        pyJoin "\n"
          ((["$ " ++ quoted_command pyExe script p, "", pyStrip out, pyStrip err]).filter
            (fun s => !s.isEmpty)) := by
      simp [run_inference, hne, hw, quoted_command]
    exact h0.trans (pyJoin_filter_sections _ _ _)
  refine ⟨h1, ?_, by decide⟩
  intro ho he
  rw [h1, ho, he]
  simp

/-- Witness for C10: stdout a lone newline, stderr empty. -/
theorem run_inference_strips_output_witness :
    (run_inference "py" "inference.py" (okWorld "\n" "" 0) scenarioParams).transcript =
      "$ " ++ quoted_command "py" "inference.py" scenarioParams ++
        (if pyStrip "\n" = "" then "" else "\n" ++ pyStrip "\n") ++
        (if pyStrip "" = "" then "" else "\n" ++ pyStrip "") ∧
    (pyStrip "\n" = "" → pyStrip "" = "" →
      (run_inference "py" "inference.py" (okWorld "\n" "" 0) scenarioParams).transcript =
        "$ " ++ quoted_command "py" "inference.py" scenarioParams) ∧
    pyStrip "\n" = "" :=
  run_inference_strips_output "py" "inference.py" (okWorld "\n" "" 0)
    scenarioParams "\n" "" 0 (by decide) rfl

/-- Claim C4: an empty-after-trimming device-id specifier emits no device
section at all; a non-empty one appends `--device_ids` followed by the tokens
obtained from comma-to-space replacement and whitespace splitting; concrete
cases: "0,1" and "0 1" both split to ["0","1"], and "  " trims to empty. -/
theorem device_ids_normalization (pyExe script : String) (p : Params) (s : String) :
    (pyStrip s = "" →
      build_command pyExe script { p with device_ids := some s } =
        base_tokens pyExe script { p with device_ids := some s }) ∧
    (pyStrip s ≠ "" →
      build_command pyExe script { p with device_ids := some s } =
        base_tokens pyExe script { p with device_ids := some s } ++
          ("--device_ids" :: split_device_ids (pyStrip s))) ∧
    split_device_ids "0,1" = ["0", "1"] ∧
    split_device_ids "0 1" = ["0", "1"] ∧
    build_command pyExe script { p with device_ids := some "  " } =
      base_tokens pyExe script { p with device_ids := some "  " } := by
  have hblank : device_tokens (some "  ") = [] := by decide
  refine ⟨?_, ?_, by decide, by decide, ?_⟩
  · intro h
    simp [build_command, device_tokens, h]
  · intro h
    simp [build_command, device_tokens, h]
  · simp [build_command, hblank]

/-- Witness for C4 at the specifier "0,1". -/
theorem device_ids_normalization_witness :
    build_command "py" "inference.py" { scenarioParams with device_ids := some "0,1" } =
      base_tokens "py" "inference.py" { scenarioParams with device_ids := some "0,1" } ++
        ("--device_ids" :: split_device_ids (pyStrip "0,1")) :=
  (device_ids_normalization "py" "inference.py" scenarioParams "0,1").2.1 (by decide)

/-- Claim C5: for the spec scenario Parameter Set, the token list after the
two leading interpreter/script tokens is exactly the required flag/value
pairs followed by the device section, with no bare boolean flag present. -/
theorem scenario_build_command (pyExe script : String) :
    (build_command pyExe script scenarioParams).drop 2 =
      ["--model_type", "bs_roformer", "--config_path", "c.yaml",
       "--start_check_point", "m.ckpt", "--input_file", "a.wav",
       "--store_dir", "out/", "--device_ids", "0"] ∧
    "--extract_instrumental" ∉ (build_command pyExe script scenarioParams).drop 2 ∧
    "--use_tta" ∉ (build_command pyExe script scenarioParams).drop 2 ∧
    "--force_cpu" ∉ (build_command pyExe script scenarioParams).drop 2 := by
  have h : (build_command pyExe script scenarioParams).drop 2 =
      ["--model_type", "bs_roformer", "--config_path", "c.yaml",
       "--start_check_point", "m.ckpt", "--input_file", "a.wav",
       "--store_dir", "out/", "--device_ids", "0"] := rfl
  refine ⟨h, ?_, ?_, ?_⟩ <;> rw [h] <;> decide

/-- Claim C8: `build_command` is deterministic: two calls whose arguments
agree field-for-field return the same token list. -/
theorem build_command_deterministic (pyExe script : String) (p q : Params)
    (h1 : p.model_type = q.model_type) (h2 : p.config_path = q.config_path)
    (h3 : p.start_check_point = q.start_check_point)
    (h4 : p.input_file = q.input_file) (h5 : p.store_dir = q.store_dir)
    (h6 : p.extract_instrumental = q.extract_instrumental)
    (h7 : p.use_tta = q.use_tta) (h8 : p.force_cpu = q.force_cpu)
    (h9 : p.device_ids = q.device_ids) :
    build_command pyExe script p = build_command pyExe script q := by
  have hpq : p = q := by
    cases p
    cases q
    simp_all
  rw [hpq]

/-- Witness for C8 with two identical concrete Parameter Sets. -/
theorem build_command_deterministic_witness :
    build_command "py" "inference.py" scenarioParams =
      build_command "py" "inference.py"
        { model_type := "bs_roformer", config_path := "c.yaml",
          start_check_point := "m.ckpt", input_file := "a.wav",
          store_dir := "out/", extract_instrumental := false,
          use_tta := false, force_cpu := false, device_ids := some "0" } :=
  build_command_deterministic "py" "inference.py" scenarioParams
    { model_type := "bs_roformer", config_path := "c.yaml",
      start_check_point := "m.ckpt", input_file := "a.wav",
      store_dir := "out/", extract_instrumental := false,
      use_tta := false, force_cpu := false, device_ids := some "0" }
    rfl rfl rfl rfl rfl rfl rfl rfl rfl

/-- Claim C9: an absent (None) device-id specifier behaves exactly like the
empty string: the same token list results, and no device section is
emitted. -/
theorem build_command_none_device_ids (pyExe script : String) (p : Params) :
    build_command pyExe script { p with device_ids := none } =
      build_command pyExe script { p with device_ids := some "" } ∧
    build_command pyExe script { p with device_ids := none } =
      base_tokens pyExe script { p with device_ids := none } := by
  constructor
  · rfl
  · simp [build_command, device_tokens, pyStrip]

theorem count_required_tokens_eq_zero (pyExe script : String) (p : Params)
    (t : String) (ht : t ∈ bare_flag_tokens)
    (hvals : ∀ u ∈ pyExe :: script :: p.model_type :: p.config_path ::
        p.start_check_point :: p.input_file :: p.store_dir ::
        device_tokens p.device_ids, u ∉ bare_flag_tokens) :
    (required_tokens pyExe script p).count t = 0 := by
  rw [List.count_eq_zero]
  intro hmem
  simp only [required_tokens, List.mem_cons, List.not_mem_nil, or_false] at hmem
  rcases hmem with h | h | h | h | h | h | h | h | h | h | h | h <;> subst h <;>
    first
      | exact absurd ht (by decide)
      | exact hvals _ (by simp) ht

theorem count_device_tokens_eq_zero (pyExe script : String) (p : Params)
    (t : String) (ht : t ∈ bare_flag_tokens)
    (hvals : ∀ u ∈ pyExe :: script :: p.model_type :: p.config_path ::
        p.start_check_point :: p.input_file :: p.store_dir ::
        device_tokens p.device_ids, u ∉ bare_flag_tokens) :
    (device_tokens p.device_ids).count t = 0 := by
  rw [List.count_eq_zero]
  intro hmem
  exact hvals t (by simp [hmem]) ht

/-- Claim C3: `build_command` emits the five required flag/value pairs first,
in one fixed order, and each bare boolean flag token occurs exactly once when
its boolean is true and not at all when it is false, provided no parameter
value token coincides with a bare flag token. -/
theorem build_command_fixed_order_and_bool_flags (pyExe script : String) (p : Params)
    (hvals : ∀ u ∈ pyExe :: script :: p.model_type :: p.config_path ::
        p.start_check_point :: p.input_file :: p.store_dir ::
        device_tokens p.device_ids, u ∉ bare_flag_tokens) :
    (build_command pyExe script p).take 12 = required_tokens pyExe script p ∧
    (build_command pyExe script p).count "--extract_instrumental" =
      (if p.extract_instrumental then 1 else 0) ∧
    (build_command pyExe script p).count "--use_tta" =
      (if p.use_tta then 1 else 0) ∧
    (build_command pyExe script p).count "--force_cpu" =
      (if p.force_cpu then 1 else 0) := by
  rw [build_command_append_form]
  refine ⟨?_, ?_, ?_, ?_⟩
  · rw [show (12 : Nat) = (required_tokens pyExe script p).length from rfl]
    exact List.take_left _ _
  all_goals
    rw [List.count_append, List.count_append, List.count_append, List.count_append,
      count_required_tokens_eq_zero pyExe script p _ (by decide) hvals,
      count_device_tokens_eq_zero pyExe script p _ (by decide) hvals]
  all_goals
    cases p.extract_instrumental <;> cases p.use_tta <;> cases p.force_cpu <;> decide

/-- A Parameter Set with two of the three boolean flags set. -/
def twoFlagsParams : Params :=
  { scenarioParams with extract_instrumental := true, use_tta := true }

/-- Witness for C3 at a Parameter Set with two boolean flags true. -/
theorem build_command_fixed_order_and_bool_flags_witness :
    (build_command "py" "inference.py" twoFlagsParams).take 12 =
      required_tokens "py" "inference.py" twoFlagsParams ∧
    (build_command "py" "inference.py" twoFlagsParams).count "--extract_instrumental" =
      (if twoFlagsParams.extract_instrumental then 1 else 0) ∧
    (build_command "py" "inference.py" twoFlagsParams).count "--use_tta" =
      (if twoFlagsParams.use_tta then 1 else 0) ∧
    (build_command "py" "inference.py" twoFlagsParams).count "--force_cpu" =
      (if twoFlagsParams.force_cpu then 1 else 0) :=
  build_command_fixed_order_and_bool_flags "py" "inference.py" twoFlagsParams (by decide)
